import Mathlib

/-!
# Request admission and outcome mapping: a shallow embedding

This file embeds the request-admission layer of the repository in Lean 4 and
proves the specified properties about it:

* the request Gate (`proxy.ts`): path allow-list check, session-cookie
  presence check, path-annotation header, redirect to `/login`;
* the Outcome Mapper convention at each server-side call site
  (`create-post-action.ts`, `delete-post-action`, `delete-file-action.ts`,
  `get-upload-url-action.ts`, `get-download-url-action`, and the machine-facing
  `GET /api/example` handler);
* the activity-log flush (`Activity.send` in the activity service);
* the Telegram message chunker (`splitIntoChunks` in
  `lib/services/telegram/live-layer.ts`).

Strings are modelled as lists of characters (`Str`), so that the JS string
operations involved (`startsWith`, `slice`, `length`, concatenation) become
`List.isPrefixOf`, `take`/`drop`, `List.length` and `++`.
-/

/-- Strings of the host language, modelled as character lists. -/
abbrev Str := List Char

/-! ## The request Gate (`proxy.ts`)

Source:
```
const SESSION_COOKIE = 'better-auth.session_token';
const SECURE_SESSION_COOKIE = '__Secure-better-auth.session_token';
const PUBLIC_ROUTES = ['/', '/login'];

export function proxy(request: NextRequest) {
  const { pathname } = request.nextUrl;
  const response = NextResponse.next();
  response.headers.set('x-pathname', pathname);
  if (
    PUBLIC_ROUTES.includes(pathname) ||
    PUBLIC_ROUTES.some(r => r !== '/' && pathname.startsWith(r))
  ) {
    return response;
  }
  const hasSession =
    request.cookies.has(SESSION_COOKIE) || request.cookies.has(SECURE_SESSION_COOKIE);
  if (!hasSession) {
    return NextResponse.redirect(new URL('/login', request.url));
  }
  return response;
}
```
-/

def SESSION_COOKIE : Str := "better-auth.session_token".toList

def SECURE_SESSION_COOKIE : Str := "__Secure-better-auth.session_token".toList

def PUBLIC_ROUTES : List Str := ["/".toList, "/login".toList]

/-- An inbound request, as seen by the Gate: its URL path and its cookie set
(a mapping from cookie name to opaque value; a cookie may carry the empty
value, e.g. a `Cookie: name=` header). -/
structure NextRequest where
  pathname : Str
  cookies : List (Str × Str)
deriving DecidableEq, Repr

/-- The Gate's decision: pass the request through (with the response headers
set so far) or redirect to a target path. -/
inductive Decision where
  | allow (headers : List (Str × Str))
  | redirectTo (target : Str)
deriving DecidableEq, Repr

/-- `request.cookies.has(name)`: the cookie set contains a cookie of that
name; the value is not inspected. -/
def cookiesHas (cookies : List (Str × Str)) (name : Str) : Bool :=
  cookies.any (fun c => c.1 == name)

/-- The Gate's allow-list condition, verbatim from the source:
`PUBLIC_ROUTES.includes(pathname) || PUBLIC_ROUTES.some(r => r !== '/' && pathname.startsWith(r))`. -/
def isPublicRoute (pathname : Str) : Bool :=
  PUBLIC_ROUTES.contains pathname ||
    PUBLIC_ROUTES.any (fun r => r != "/".toList && List.isPrefixOf r pathname)

/-- The Gate (`proxy`). `NextResponse.next()` with the `x-pathname` header set
is the `allow` decision carrying that single header; `NextResponse.redirect(new
URL('/login', request.url))` is the `redirectTo` decision. -/
def proxy (request : NextRequest) : Decision :=
  let pathname := request.pathname
  let response := Decision.allow [("x-pathname".toList, pathname)]
  if isPublicRoute pathname then
    response
  else
    let hasSession :=
      cookiesHas request.cookies SESSION_COOKIE ||
        cookiesHas request.cookies SECURE_SESSION_COOKIE
    if !hasSession then
      Decision.redirectTo ("/login".toList)
    else
      response

/-! ## The Outcome Mapper convention

A failed computation carries a tagged error; every error variant of the
repository (`lib/core/errors/index.ts` and the service error modules) has a
string discriminant `_tag` and a `message` field, and the Mapper dispatches on
the discriminant only, so the variant-specific extra fields (`entity`, `id`,
`field`, `cause`) are not modelled. -/

structure TaggedError where
  tag : Str
  message : Str
deriving DecidableEq, Repr

/-- The value a server action resolves to in the interactive contexts:
an actual redirect (performed by the `NextEffect.runPromise` boundary), a
`\x7b _tag: 'Error', message \x7d` payload, a `\x7b _tag: 'Success', ...payload \x7d`
value, or the bare `undefined` value (a handler that returns nothing). -/
inductive ActionOutcome (α : Type) where
  | redirect (target : Str)
  | error (message : Str)
  | success (payload : α)
  | undefinedValue
deriving DecidableEq, Repr

/-- Modelled from the spec: `lib/next-effect/index.ts` is not among the
sources (only its call sites are). Per the spec, `NextEffect.redirect(target)`
signals a redirect through the error channel which `NextEffect.runPromise`
catches at the boundary and turns into an actual redirect to `target`, so the
call's outcome is the redirect itself. -/
def NextEffect.redirect {α : Type} (target : Str) : ActionOutcome α :=
  ActionOutcome.redirect target

/-- A post row, as inserted and returned by `createPostAction`
(`title`, `content`, `userId` plus the generated id). -/
structure Post where
  id : Str
  title : Str
  content : Option Str
  userId : Str
deriving DecidableEq, Repr

/-- Payload returned by `getUploadUrlAction` on success. -/
structure UploadUrlData where
  signedUrl : Str
  publicUrl : Str
  key : Str
deriving DecidableEq, Repr

/-- Payload returned by `getDownloadUrlAction` on success. -/
structure DownloadUrlData where
  signedUrl : Str
deriving DecidableEq, Repr

/-- The Outcome Mapper of `createPostAction`
(`src/lib/core/post/create-post-action.ts`, the `Effect.matchEffect` block):
given the computation's result, the resolved outcome together with the list of
`revalidatePath` calls performed. On failure: `UnauthenticatedError` →
`NextEffect.redirect('/login')`, otherwise `\x7b _tag: 'Error', message:
`Failed to create post: $\x7berror.message\x7d` \x7d`. On success:
`revalidatePath('/')` then `\x7b _tag: 'Success', post \x7d`. -/
def createPostAction (result : Except TaggedError Post) :
    ActionOutcome Post × List Str :=
  match result with
  | Except.error e =>
    (if e.tag = "UnauthenticatedError".toList then
      NextEffect.redirect ("/login".toList)
    else
      ActionOutcome.error ("Failed to create post: ".toList ++ e.message), [])
  | Except.ok post => (ActionOutcome.success post, ["/".toList])

/-- The Outcome Mapper of `deletePostAction` (same file, second action):
failure dispatch `UnauthenticatedError` → redirect, `UnauthorizedError` and
`NotFoundError` → `\x7b _tag: 'Error', message: error.message \x7d`, catch-all →
`\x7b _tag: 'Error', message: 'Something went wrong' \x7d`; on success the handler
is `Effect.sync(() => revalidatePath('/'))`, whose value is the bare
`undefined` returned by `revalidatePath`. -/
def deletePostAction (result : Except TaggedError Unit) :
    ActionOutcome Unit × List Str :=
  match result with
  | Except.error e =>
    (if e.tag = "UnauthenticatedError".toList then
      NextEffect.redirect ("/login".toList)
    else if e.tag = "UnauthorizedError".toList then
      ActionOutcome.error e.message
    else if e.tag = "NotFoundError".toList then
      ActionOutcome.error e.message
    else
      ActionOutcome.error ("Something went wrong".toList), [])
  | Except.ok _ => (ActionOutcome.undefinedValue, ["/".toList])

/-- The Outcome Mapper of `deleteFileAction`
(`src/lib/core/file/delete-file-action.ts`): `UnauthenticatedError` →
redirect, catch-all → `\x7b _tag: 'Error', message: 'Failed to delete file' \x7d`;
on success `\x7b _tag: 'Success' \x7d` with no further fields and no
`revalidatePath` call. -/
def deleteFileAction (result : Except TaggedError Unit) :
    ActionOutcome Unit × List Str :=
  match result with
  | Except.error e =>
    (if e.tag = "UnauthenticatedError".toList then
      NextEffect.redirect ("/login".toList)
    else
      ActionOutcome.error ("Failed to delete file".toList), [])
  | Except.ok _ => (ActionOutcome.success (), [])

/-- The Outcome Mapper of `getUploadUrlAction`
(`src/lib/core/file/get-upload-url-action.ts`): `UnauthenticatedError` →
redirect, catch-all → `'Failed to generate upload URL'`; success →
`\x7b _tag: 'Success', signedUrl, publicUrl, key \x7d`. -/
def getUploadUrlAction (result : Except TaggedError UploadUrlData) :
    ActionOutcome UploadUrlData × List Str :=
  match result with
  | Except.error e =>
    (if e.tag = "UnauthenticatedError".toList then
      NextEffect.redirect ("/login".toList)
    else
      ActionOutcome.error ("Failed to generate upload URL".toList), [])
  | Except.ok data => (ActionOutcome.success data, [])

/-- The Outcome Mapper of `getDownloadUrlAction`
(`get-download-url-action`): `UnauthenticatedError` → redirect, catch-all →
`'Failed to generate download URL'`; success → `\x7b _tag: 'Success',
signedUrl \x7d`. -/
def getDownloadUrlAction (result : Except TaggedError DownloadUrlData) :
    ActionOutcome DownloadUrlData × List Str :=
  match result with
  | Except.error e =>
    (if e.tag = "UnauthenticatedError".toList then
      NextEffect.redirect ("/login".toList)
    else
      ActionOutcome.error ("Failed to generate download URL".toList), [])
  | Except.ok data => (ActionOutcome.success data, [])

/-- Body of a machine-facing (API) response: either the posts payload or a
JSON error body `\x7b error: string \x7d`. -/
inductive ApiBody where
  | postsBody (posts : List Post)
  | errorBody (error : Str)
deriving DecidableEq, Repr

/-- A machine-facing HTTP response: status code and JSON body. -/
structure ApiResponse where
  status : Nat
  body : ApiBody
deriving DecidableEq, Repr

/-- The machine-facing Mapper of `GET /api/example` (`getHandler`): success →
status 200 with the posts; `UnauthenticatedError` → status 401 with
`\x7b error: 'Not authenticated' \x7d`; any other failure → status 500 with
`\x7b error: 'Internal server error' \x7d`. -/
def getHandler (result : Except TaggedError (List Post)) : ApiResponse :=
  match result with
  | Except.ok posts => ⟨200, ApiBody.postsBody posts⟩
  | Except.error e =>
    if e.tag = "UnauthenticatedError".toList then
      ⟨401, ApiBody.errorBody ("Not authenticated".toList)⟩
    else
      ⟨500, ApiBody.errorBody ("Internal server error".toList)⟩

/-! ## The activity-log flush (`Activity.send`)

Source (`lib/services/activity/live-layer.ts`):
```
const send = (messageOrOptions?, options?) => {
  const message = typeof messageOrOptions === 'string' ? messageOrOptions : undefined;
  ...
  return Effect.gen(function* () {
    let logs = yield* FiberRef.get(LogsRef);
    if (message) logs = [...logs, { timestamp: new Date().toISOString(), message }];
    if (logs.length === 0) return;
    ... // format the text
    yield* telegram.send(text);
    yield* FiberRef.set(LogsRef, []);
  }).pipe(
    Effect.withSpan('Activity.send'),
    Effect.tapError(error => Effect.logError('Activity send failed', { error })),
    Effect.catchAll(() => Effect.void),
    Effect.forkDaemon
  );
};
```
The flush computation is embedded with its fiber-local state passed
explicitly: `buffer` is the accumulated `LogsRef` content at the start of the
flush fiber, `now` the clock reading used for the optional trailing message,
and `telegramOk` the outcome of the underlying `telegram.send` (the text it is
given is a pure function of the logs and options and cannot affect the control
flow, so its construction is not repeated here). The result is the error the
computation fails with (if any) together with the `LogsRef` content after the
computation. -/

structure Log where
  timestamp : Str
  message : Str
deriving DecidableEq, Repr

/-- The body of the flush (the `Effect.gen` block above, before the
`catchAll`): fails exactly when the underlying Telegram send fails, in which
case `FiberRef.set(LogsRef, [])` was never reached and the buffer is
unchanged. -/
def Activity.sendBody (buffer : List Log) (message : Option Str) (now : Str)
    (telegramOk : Bool) : Except Str (List Log) :=
  let logs : List Log :=
    match message with
    | some m => buffer ++ [⟨now, m⟩]
    | none => buffer
  if logs.length == 0 then Except.ok buffer
  else if telegramOk then Except.ok []
  else Except.error ("TelegramSendError".toList)

/-- The flush as its caller observes it: `tapError` logs the failure and
`Effect.catchAll(() => Effect.void)` then swallows it, so the error channel
(first component) is what the flush effect can fail with, and the second
component is the buffer afterwards. (`forkDaemon` detaches the flush; the
computation inside the daemon fiber is what is modelled.) -/
def Activity.send (buffer : List Log) (message : Option Str) (now : Str)
    (telegramOk : Bool) : Option Str × List Log :=
  match Activity.sendBody buffer message now telegramOk with
  | Except.ok b => (none, b)
  | Except.error _ => (none, buffer)

/-! ## The Telegram chunker (`lib/services/telegram/live-layer.ts`)

Source:
```
const TELEGRAM_MESSAGE_MAX_LENGTH = 4096;

const splitIntoChunks = (str: string, chunkSize: number): string[] => {
  const length = Math.ceil(str.length / chunkSize);
  return Array.from({ length }, (_, i) => str.slice(i * chunkSize, i * chunkSize + chunkSize));
};
```
For `chunkSize > 0`, `Math.ceil(str.length / chunkSize)` on exact
floating-point division of these magnitudes is the natural-number ceiling
`(str.length + chunkSize - 1) / chunkSize`; `Array.from(\x7b length \x7d, f)` is
`(List.range length).map f`; and `str.slice(a, a + chunkSize)` is
`(str.drop a).take chunkSize` (JS `slice` clamps at the string's end exactly
as `take` does). -/

def TELEGRAM_MESSAGE_MAX_LENGTH : Nat := 4096

def splitIntoChunks (str : Str) (chunkSize : Nat) : List Str :=
  (List.range ((str.length + chunkSize - 1) / chunkSize)).map
    (fun i => (str.drop (i * chunkSize)).take chunkSize)

/-- `Telegram.send`: the `send` method splits the message into chunks of
`TELEGRAM_MESSAGE_MAX_LENGTH` and transmits them with one `sendMessage` call
each, in order (`for (const chunk of chunks) yield* sendMessage(chunk)`).
The value is the ordered list of transmitted chunks. -/
def Telegram.send (message : Str) : List Str :=
  splitIntoChunks message TELEGRAM_MESSAGE_MAX_LENGTH

/-! ## Chunker lemmas -/

/-- The empty string yields no chunks. -/
theorem splitIntoChunks_nil (cs : Nat) : splitIntoChunks [] cs = [] := by
  unfold splitIntoChunks
  have h : (List.length ([] : Str) + cs - 1) / cs = 0 := by
    rcases Nat.eq_zero_or_pos cs with h0 | h0
    · subst h0; rfl
    · exact Nat.div_eq_of_lt (by simp; omega)
  rw [h]
  rfl

/-- Peeling one chunk off a non-empty string. -/
theorem splitIntoChunks_cons (s : Str) (cs : Nat) (hcs : 0 < cs) (hs : s ≠ []) :
    splitIntoChunks s cs = s.take cs :: splitIntoChunks (s.drop cs) cs := by
  have hn : 0 < s.length := List.length_pos.mpr hs
  have hceil : (s.length + cs - 1) / cs = (s.length - 1) / cs + 1 := by
    have h1 : s.length + cs - 1 = (s.length - 1) + cs := by omega
    rw [h1, Nat.add_div_right _ hcs]
  have hceil2 : ((s.drop cs).length + cs - 1) / cs = (s.length - 1) / cs := by
    rw [List.length_drop]
    rcases le_or_lt s.length cs with h | h
    · have h1 : s.length - cs = 0 := by omega
      rw [h1, Nat.div_eq_of_lt (by omega), Nat.div_eq_of_lt (by omega)]
    · have h1 : s.length - cs + cs - 1 = s.length - 1 := by omega
      rw [h1]
  unfold splitIntoChunks
  rw [hceil, hceil2, List.range_succ_eq_map, List.map_cons, List.map_map]
  congr 1
  · rw [Nat.zero_mul, List.drop_zero]
  · apply List.map_congr_left
    intro i _
    show (s.drop (Nat.succ i * cs)).take cs = ((s.drop cs).drop (i * cs)).take cs
    have hidx : Nat.succ i * cs = cs + i * cs := by rw [Nat.succ_mul]; omega
    rw [List.drop_drop, hidx]

/-- Concatenating the chunks restores the string (generalized over a fuel
bound on the length, for the induction). -/
theorem splitIntoChunks_flatten_aux (cs : Nat) (hcs : 0 < cs) :
    ∀ (n : Nat) (s : Str), s.length ≤ n → (splitIntoChunks s cs).flatten = s := by
  intro n
  induction n with
  | zero =>
    intro s h
    have hs : s = [] := List.eq_nil_of_length_eq_zero (by omega)
    subst hs
    rw [splitIntoChunks_nil]
    rfl
  | succ n ih =>
    intro s h
    by_cases hs : s = []
    · subst hs; rw [splitIntoChunks_nil]; rfl
    · have hlen := List.length_pos.mpr hs
      rw [splitIntoChunks_cons s cs hcs hs, List.flatten_cons,
        ih (s.drop cs) (by rw [List.length_drop]; omega), List.take_append_drop]

/-- Every chunk has length at most the chunk size. -/
theorem splitIntoChunks_length_le (s : Str) (cs : Nat) :
    ∀ c ∈ splitIntoChunks s cs, c.length ≤ cs := by
  intro c hc
  simp only [splitIntoChunks, List.mem_map, List.mem_range] at hc
  obtain ⟨i, _, rfl⟩ := hc
  rw [List.length_take]
  exact min_le_left _ _

/-- Every chunk except possibly the last has length exactly the chunk size
(fuel-bounded for the induction). -/
theorem splitIntoChunks_dropLast_aux (cs : Nat) (hcs : 0 < cs) :
    ∀ (n : Nat) (s : Str), s.length ≤ n →
      ∀ c ∈ (splitIntoChunks s cs).dropLast, c.length = cs := by
  intro n
  induction n with
  | zero =>
    intro s h c hc
    have hs : s = [] := List.eq_nil_of_length_eq_zero (by omega)
    subst hs
    rw [splitIntoChunks_nil] at hc
    simp at hc
  | succ n ih =>
    intro s h c hc
    by_cases hs : s = []
    · subst hs; rw [splitIntoChunks_nil] at hc; simp at hc
    · have hlen := List.length_pos.mpr hs
      rw [splitIntoChunks_cons s cs hcs hs] at hc
      by_cases hrest : splitIntoChunks (s.drop cs) cs = []
      · rw [hrest, List.dropLast_single] at hc
        simp at hc
      · rw [List.dropLast_cons_of_ne_nil hrest] at hc
        rcases List.mem_cons.mp hc with hceq | hmem
        · subst hceq
          have hd : s.drop cs ≠ [] := by
            intro hdrop
            rw [hdrop, splitIntoChunks_nil] at hrest
            exact hrest rfl
          have hlt : cs < s.length := by
            have h2 := List.length_pos.mpr hd
            rw [List.length_drop] at h2
            omega
          rw [List.length_take]
          exact min_eq_left (by omega)
        · exact ih (s.drop cs) (by rw [List.length_drop]; omega) c hmem

/-! ## Gate lemmas -/

/-- The allow-list check, characterized: the condition
`PUBLIC_ROUTES.includes(p) || PUBLIC_ROUTES.some(r => r !== '/' && p.startsWith(r))`
holds exactly when `p` is `"/"` or has `"/login"` as a prefix (the `"/login"`
entry also acts as a prefix root, since it differs from `"/"`). -/
theorem isPublicRoute_iff (p : Str) :
    isPublicRoute p = true ↔ (p = "/".toList ∨ "/login".toList <+: p) := by
  have h1 : ("/login".toList : Str) ≠ "/".toList := by decide
  simp [isPublicRoute, PUBLIC_ROUTES, List.isPrefixOf_iff_prefix, h1]
  constructor
  · rintro ((h | h) | h)
    · exact Or.inl h
    · subst h; exact Or.inr (List.prefix_refl _)
    · exact Or.inr h
  · rintro (h | h)
    · exact Or.inl (Or.inl h)
    · exact Or.inr h

/-! ## The claims -/

/-- C1, counterexample: the path `/login/otp` passes the Gate's allow-list
check although it is neither the literal `/` nor the literal `/login` — the
`"/login"` entry of `PUBLIC_ROUTES` acts as a prefix root through the
`r !== '/' && pathname.startsWith(r)` clause, so the claim that exactly the
two literals are public is false. -/
theorem c1_counterexample :
    isPublicRoute ("/login/otp".toList) = true ∧
      "/login/otp".toList ≠ "/".toList ∧ "/login/otp".toList ≠ "/login".toList := by
  decide

/-- C1, amended: the Gate's allow-list check succeeds exactly when the path is
the literal `/` or has `/login` as a prefix; the observed configuration does
use a prefix-based public root, namely its `"/login"` entry. -/
theorem c1_public_allowlist_characterization (p : Str) :
    isPublicRoute p = true ↔ (p = "/".toList ∨ "/login".toList <+: p) :=
  isPublicRoute_iff p

/-- C2, counterexample: on the non-public path `/dashboard`, a request whose
only cookie is the plain session-cookie name with the EMPTY value is allowed
through — the Gate checks cookie presence only, so "present with a non-empty
value" is not required for Allow. -/
theorem c2_counterexample :
    isPublicRoute ("/dashboard".toList) = false ∧
      proxy ⟨"/dashboard".toList, [(SESSION_COOKIE, [])]⟩ =
        Decision.allow [("x-pathname".toList, "/dashboard".toList)] := by
  decide

/-- C2, amended: for every path not in the public list, the Gate returns Allow
exactly when at least one of the two recognized session-cookie names is
present (with any value, the empty one included — the value is never
inspected); if both are absent it returns RedirectTo(`/login`). -/
theorem c2_session_presence_gate (req : NextRequest)
    (hpub : isPublicRoute req.pathname = false) :
    ((cookiesHas req.cookies SESSION_COOKIE ||
        cookiesHas req.cookies SECURE_SESSION_COOKIE) = true →
      proxy req = Decision.allow [("x-pathname".toList, req.pathname)]) ∧
    ((cookiesHas req.cookies SESSION_COOKIE ||
        cookiesHas req.cookies SECURE_SESSION_COOKIE) = false →
      proxy req = Decision.redirectTo ("/login".toList)) := by
  constructor
  · intro hcook
    simp [proxy, hpub, hcook]
  · intro hcook
    simp [proxy, hpub, hcook]

/-- C2, witness: with no cookies at all, the non-public path `/dashboard` is
redirected to `/login`; with the secure-prefixed cookie present it is
allowed. -/
theorem c2_session_presence_gate_witness :
    proxy ⟨"/dashboard".toList, []⟩ = Decision.redirectTo ("/login".toList) ∧
      proxy ⟨"/dashboard".toList, [(SECURE_SESSION_COOKIE, "tok".toList)]⟩ =
        Decision.allow [("x-pathname".toList, "/dashboard".toList)] :=
  ⟨(c2_session_presence_gate ⟨"/dashboard".toList, []⟩ (by decide)).2 (by decide),
    (c2_session_presence_gate ⟨"/dashboard".toList,
      [(SECURE_SESSION_COOKIE, "tok".toList)]⟩ (by decide)).1 (by decide)⟩

/-- C3: at every Mapper call site of the repository — the five interactive
server actions and the machine-facing `GET /api/example` handler — a
computation failing with the `UnauthenticatedError` discriminant yields a
redirect to `/login` (interactive, with no revalidation) or an HTTP 401
response (machine), whatever other variants the call site declares and
whatever the error's message. -/
theorem c3_unauthenticated_privileged (e : TaggedError)
    (h : e.tag = "UnauthenticatedError".toList) :
    createPostAction (Except.error e) = (ActionOutcome.redirect ("/login".toList), []) ∧
    deletePostAction (Except.error e) = (ActionOutcome.redirect ("/login".toList), []) ∧
    deleteFileAction (Except.error e) = (ActionOutcome.redirect ("/login".toList), []) ∧
    getUploadUrlAction (Except.error e) = (ActionOutcome.redirect ("/login".toList), []) ∧
    getDownloadUrlAction (Except.error e) = (ActionOutcome.redirect ("/login".toList), []) ∧
    getHandler (Except.error e) = ⟨401, ApiBody.errorBody ("Not authenticated".toList)⟩ := by
  refine ⟨?_, ?_, ?_, ?_, ?_, ?_⟩ <;>
    simp [createPostAction, deletePostAction, deleteFileAction, getUploadUrlAction,
      getDownloadUrlAction, getHandler, NextEffect.redirect, h]

/-- C3, witness: the unauthenticated error as the repository constructs it
(`new UnauthenticatedError(\x7b message: 'Not authenticated' \x7d)`). -/
theorem c3_unauthenticated_privileged_witness :
    createPostAction (Except.error ⟨"UnauthenticatedError".toList, "Not authenticated".toList⟩) =
        (ActionOutcome.redirect ("/login".toList), []) ∧
      getHandler (Except.error ⟨"UnauthenticatedError".toList, "Not authenticated".toList⟩) =
        ⟨401, ApiBody.errorBody ("Not authenticated".toList)⟩ :=
  ⟨(c3_unauthenticated_privileged ⟨"UnauthenticatedError".toList,
      "Not authenticated".toList⟩ (by decide)).1,
    (c3_unauthenticated_privileged ⟨"UnauthenticatedError".toList,
      "Not authenticated".toList⟩ (by decide)).2.2.2.2.2⟩

/-- C4, counterexample: on success, `deletePostAction` resolves to the bare
`undefined` value of `revalidatePath('/')` — not a Success-tagged payload —
and `deleteFileAction` resolves to `\x7b _tag: 'Success' \x7d` with ZERO
cache-invalidation calls, so "tagged Success ... with exactly one revalidate
call on success" fails at both of these call sites. -/
theorem c4_counterexample :
    deletePostAction (Except.ok ()) = (ActionOutcome.undefinedValue, ["/".toList]) ∧
      deleteFileAction (Except.ok ()) = (ActionOutcome.success (), []) := by
  decide

/-- C4, amended: on success, `createPostAction`, `getUploadUrlAction`,
`getDownloadUrlAction` and `deleteFileAction` return a Success-tagged outcome
whose payload equals the computation's return value, while `deletePostAction`
returns the bare `undefined`; exactly one revalidate call occurs on success at
the post actions and zero at the file actions, and zero occur on failure at
every site. -/
theorem c4_success_outcomes :
    (∀ post, createPostAction (Except.ok post) = (ActionOutcome.success post, ["/".toList])) ∧
    (∀ d, getUploadUrlAction (Except.ok d) = (ActionOutcome.success d, [])) ∧
    (∀ d, getDownloadUrlAction (Except.ok d) = (ActionOutcome.success d, [])) ∧
    deleteFileAction (Except.ok ()) = (ActionOutcome.success (), []) ∧
    deletePostAction (Except.ok ()) = (ActionOutcome.undefinedValue, ["/".toList]) ∧
    (∀ e, (createPostAction (Except.error e)).2 = []) ∧
    (∀ e, (deletePostAction (Except.error e)).2 = []) ∧
    (∀ e, (deleteFileAction (Except.error e)).2 = []) ∧
    (∀ e, (getUploadUrlAction (Except.error e)).2 = []) ∧
    (∀ e, (getDownloadUrlAction (Except.error e)).2 = []) :=
  ⟨fun _ => rfl, fun _ => rfl, fun _ => rfl, rfl, rfl,
    fun _ => rfl, fun _ => rfl, fun _ => rfl, fun _ => rfl, fun _ => rfl⟩

/-- C5: a path that passes the allow-list check is allowed with the path
annotation for EVERY cookie set — the Gate returns before inspecting
cookies. -/
theorem c5_public_allows_any_cookies (path : Str) (cookies : List (Str × Str))
    (h : isPublicRoute path = true) :
    proxy ⟨path, cookies⟩ = Decision.allow [("x-pathname".toList, path)] := by
  simp [proxy, h]

/-- C5, witness: the path `/login` with the empty cookie set yields Allow. -/
theorem c5_public_allows_any_cookies_witness :
    proxy ⟨"/login".toList, []⟩ =
      Decision.allow [("x-pathname".toList, "/login".toList)] :=
  c5_public_allows_any_cookies ("/login".toList) [] (by decide)

/-- C6: whenever the Gate allows a request — public or authenticated — the
response headers are exactly the `x-pathname` annotation carrying the exact
inbound request path. -/
theorem c6_allow_annotates_path (req : NextRequest) (hdrs : List (Str × Str))
    (h : proxy req = Decision.allow hdrs) :
    hdrs = [("x-pathname".toList, req.pathname)] := by
  simp only [proxy] at h
  by_cases hp : isPublicRoute req.pathname
  · rw [if_pos hp] at h
    injection h with h
    exact h.symm
  · rw [if_neg hp] at h
    by_cases hs : (cookiesHas req.cookies SESSION_COOKIE ||
        cookiesHas req.cookies SECURE_SESSION_COOKIE) = true
    · rw [hs] at h
      simp at h
      exact h.symm
    · simp only [Bool.not_eq_true] at hs
      rw [hs] at h
      simp at h

/-- C6, witness: an authenticated request to `/settings/profile` is annotated
with exactly that path. -/
theorem c6_allow_annotates_path_witness :
    [("x-pathname".toList, "/settings/profile".toList)] =
      [("x-pathname".toList, "/settings/profile".toList)] :=
  c6_allow_annotates_path
    ⟨"/settings/profile".toList, [(SECURE_SESSION_COOKIE, "tok".toList)]⟩
    [("x-pathname".toList, "/settings/profile".toList)] (by decide)

/-- C7: at every interactive Mapper call site, a declared
non-authentication failure yields an Error-tagged outcome with a non-empty
message and no revalidation — never a success payload. The message is the
call site's generic fallback, except at `deletePostAction` whose
`UnauthorizedError`/`NotFoundError` arms forward the error's own message;
every error the repository's domain computations construct carries a
non-empty message, captured by the `e.message ≠ []` hypothesis of that
conjunct. -/
theorem c7_declared_errors_inline (e : TaggedError)
    (h : e.tag ≠ "UnauthenticatedError".toList) :
    (∃ m, createPostAction (Except.error e) = (ActionOutcome.error m, []) ∧ m ≠ []) ∧
    (∃ m, deleteFileAction (Except.error e) = (ActionOutcome.error m, []) ∧ m ≠ []) ∧
    (∃ m, getUploadUrlAction (Except.error e) = (ActionOutcome.error m, []) ∧ m ≠ []) ∧
    (∃ m, getDownloadUrlAction (Except.error e) = (ActionOutcome.error m, []) ∧ m ≠ []) ∧
    (e.message ≠ [] →
      ∃ m, deletePostAction (Except.error e) = (ActionOutcome.error m, []) ∧ m ≠ []) := by
  refine ⟨⟨"Failed to create post: ".toList ++ e.message, ?_, by simp⟩,
    ⟨"Failed to delete file".toList, ?_, by decide⟩,
    ⟨"Failed to generate upload URL".toList, ?_, by decide⟩,
    ⟨"Failed to generate download URL".toList, ?_, by decide⟩, ?_⟩
  · simp only [createPostAction]
    rw [if_neg h]
  · simp only [deleteFileAction]
    rw [if_neg h]
  · simp only [getUploadUrlAction]
    rw [if_neg h]
  · simp only [getDownloadUrlAction]
    rw [if_neg h]
  · intro hmsg
    by_cases h1 : e.tag = "UnauthorizedError".toList
    · exact ⟨e.message, by simp only [deletePostAction]; rw [if_neg h, if_pos h1], hmsg⟩
    · by_cases h2 : e.tag = "NotFoundError".toList
      · exact ⟨e.message,
          by simp only [deletePostAction]; rw [if_neg h, if_neg h1, if_pos h2], hmsg⟩
      · exact ⟨"Something went wrong".toList,
          by simp only [deletePostAction]; rw [if_neg h, if_neg h1, if_neg h2], by decide⟩

/-- C7, witness: the not-found error as `deletePostAction` constructs it
(`new NotFoundError(\x7b message: 'Post not found', ... \x7d)`) yields an inline
Error outcome with a non-empty message. -/
theorem c7_declared_errors_inline_witness :
    ∃ m, deletePostAction (Except.error ⟨"NotFoundError".toList, "Post not found".toList⟩) =
        (ActionOutcome.error m, []) ∧ m ≠ [] :=
  (c7_declared_errors_inline ⟨"NotFoundError".toList, "Post not found".toList⟩
    (by decide)).2.2.2.2 (by decide)

/-- C8: the activity-log flush never surfaces a failure — for every buffer
state, optional trailing message, clock reading and outcome of the underlying
Telegram send, the flush effect's error channel is empty (the `tapError` logs
and the `catchAll` swallows) — and whenever the underlying send succeeds the
accumulated buffer afterwards is empty (it is flushed and cleared, or it was
already empty and nothing was sent). -/
theorem c8_flush_swallows_and_resets (buffer : List Log) (message : Option Str)
    (now : Str) (telegramOk : Bool) :
    (Activity.send buffer message now telegramOk).1 = none ∧
      (Activity.send buffer message now true).2 = [] := by
  constructor
  · unfold Activity.send
    cases h : Activity.sendBody buffer message now telegramOk <;> rfl
  · unfold Activity.send Activity.sendBody
    cases message with
    | none =>
      cases buffer with
      | nil => rfl
      | cons l ls => simp
    | some m => simp

/-- C9: the Gate is deterministic and stateless — two invocations on
identical (path, cookie set) inputs produce identical decisions. -/
theorem c9_gate_deterministic (r1 r2 : NextRequest)
    (hpath : r1.pathname = r2.pathname) (hcook : r1.cookies = r2.cookies) :
    proxy r1 = proxy r2 := by
  cases r1
  cases r2
  cases hpath
  cases hcook
  rfl

/-- C9, witness: two identical requests to `/dashboard` with the same cookie
set get the same decision. -/
theorem c9_gate_deterministic_witness :
    proxy ⟨"/dashboard".toList, [(SESSION_COOKIE, "tok".toList)]⟩ =
      proxy ⟨"/dashboard".toList, [(SESSION_COOKIE, "tok".toList)]⟩ :=
  c9_gate_deterministic ⟨"/dashboard".toList, [(SESSION_COOKIE, "tok".toList)]⟩
    ⟨"/dashboard".toList, [(SESSION_COOKIE, "tok".toList)]⟩ rfl rfl

/-- C10: the chunker at the fixed chunk size 4096 — every chunk has length at
most 4096, every chunk except possibly the last has length exactly 4096,
the in-order concatenation of the chunks is the whole string (so
`Telegram.send`, which transmits exactly these chunks in order, is lossless),
and the empty string yields zero chunks. -/
theorem c10_chunker_lossless (s : Str) :
    (∀ c ∈ splitIntoChunks s 4096, c.length ≤ 4096) ∧
    (∀ c ∈ (splitIntoChunks s 4096).dropLast, c.length = 4096) ∧
    (splitIntoChunks s 4096).flatten = s ∧
    splitIntoChunks ([] : Str) 4096 = [] ∧
    Telegram.send s = splitIntoChunks s 4096 := by
  refine ⟨splitIntoChunks_length_le s 4096, ?_, ?_, splitIntoChunks_nil 4096, rfl⟩
  · exact splitIntoChunks_dropLast_aux 4096 (by omega) s.length s (Nat.le_refl _)
  · exact splitIntoChunks_flatten_aux 4096 (by omega) s.length s (Nat.le_refl _)

/-- C10, witness: a concrete short message is one chunk, within the limit,
and concatenates back to itself. -/
theorem c10_chunker_lossless_witness :
    "hi".toList ∈ splitIntoChunks ("hi".toList) 4096 ∧
      List.length ("hi".toList) ≤ 4096 ∧
      (splitIntoChunks ("hi".toList) 4096).flatten = "hi".toList :=
  ⟨by decide, (c10_chunker_lossless ("hi".toList)).1 ("hi".toList) (by decide),
    (c10_chunker_lossless ("hi".toList)).2.2.1⟩

